import Mathlib

/-
Verification of the paper-trading account/order engine of the repository
(src/server/trading/models.py, paper_trading.py, utils.py, trading.py).

Embedding conventions:
* Python floats are modelled as rationals (ℚ); all arithmetic is exact.
* Python dicts are modelled as association lists in insertion order, with
  lookup of the first matching key, in-place update of the first matching
  key, and deletion by filtering the key out (Python dicts never hold a
  duplicate key, so the extensions agree on every reachable state).
* datetime values are modelled as opaque strings supplied by the caller
  (datetime.datetime.now() and strftime are side effects of the runtime);
  generate_id results (uuid-based) are likewise supplied as parameters.
* User-facing message strings built with f-string interpolation are
  modelled as a constructor of Msg carrying the interpolated data; the
  decimal rendering performed by format_money is not modelled.
* A function that can raise an uncaught Python exception returns an
  Option (none = the exception propagates) or an Except.
* Calls to PaperTradingService.save_account are recorded in a `saved`
  field of the result (persistence itself writes a JSON file).
-/

namespace Trading

/-- OrderType enum from models.py. -/
inductive OrderType where
  | MARKET
  | LIMIT
  | STOP
  | STOP_LIMIT
  | TRAILING_STOP
deriving DecidableEq, Repr

/-- OrderAction enum from models.py. -/
inductive OrderAction where
  | BUY
  | SELL
  | BUY_TO_COVER
  | SELL_SHORT
deriving DecidableEq, Repr

/-- OrderStatus enum from models.py. -/
inductive OrderStatus where
  | OPEN
  | EXECUTED
  | CANCELED
  | REJECTED
  | EXPIRED
deriving DecidableEq, Repr

/-- String value of an OrderStatus member (used in the cancel message). -/
def OrderStatus.value : OrderStatus → String
  | .OPEN => "OPEN"
  | .EXECUTED => "EXECUTED"
  | .CANCELED => "CANCELED"
  | .REJECTED => "REJECTED"
  | .EXPIRED => "EXPIRED"

/-- Position model from models.py. -/
structure Position where
  symbol : String
  quantity : ℚ
  cost_basis : ℚ
  current_price : Option ℚ := none
  market_value : Option ℚ := none
  unrealized_pl : Option ℚ := none
  unrealized_pl_percent : Option ℚ := none
deriving DecidableEq, Repr

/-- Order model from models.py; submitted_at is an opaque datetime string. -/
structure Order where
  order_id : String
  symbol : String
  action : OrderAction
  quantity : ℚ
  order_type : OrderType
  limit_price : Option ℚ := none
  stop_price : Option ℚ := none
  status : OrderStatus := OrderStatus.OPEN
  submitted_at : String := ""
  executed_at : Option String := none
  execution_price : Option ℚ := none
deriving DecidableEq, Repr

/-- Trade model from models.py. -/
structure Trade where
  trade_id : String
  order_id : String
  symbol : String
  action : OrderAction
  quantity : ℚ
  price : ℚ
  timestamp : String
  commission : ℚ := 0
deriving DecidableEq, Repr

/-- PaperAccount model from models.py; the dict-valued fields are
association lists in insertion order. -/
structure PaperAccount where
  cash : ℚ := 100000
  positions : List (String × Position) := []
  orders : List (String × Order) := []
  trades : List Trade := []
  daily_pl : List (String × ℚ) := []
deriving DecidableEq, Repr

/-- Lookup of a key in a Python dict modelled as an association list. -/
def dictFind {α : Type} (m : List (String × α)) (k : String) : Option α :=
  match m with
  | [] => none
  | kv :: rest => if kv.1 = k then some kv.2 else dictFind rest k

/-- Assignment `m[k] = v` on a Python dict: update the existing entry in
place, or append a new entry at the end. -/
def dictInsert {α : Type} (m : List (String × α)) (k : String) (v : α) :
    List (String × α) :=
  match m with
  | [] => [(k, v)]
  | kv :: rest => if kv.1 = k then (k, v) :: rest else kv :: dictInsert rest k v

/-- Deletion `del m[k]` on a Python dict. -/
def dictErase {α : Type} (m : List (String × α)) (k : String) :
    List (String × α) :=
  m.filter (fun kv => kv.1 != k)

/-- Messages returned by the service; each constructor stands for one
f-string of paper_trading.py and carries the data interpolated into it. -/
inductive Msg where
  | empty
  | insufficientFunds (required available : ℚ)
  | insufficientShares (required available : ℚ)
  | bought (quantity : ℚ) (symbol : String) (price : ℚ)
  | sold (quantity : ℚ) (symbol : String) (price : ℚ)
  | soldShort (quantity : ℚ) (symbol : String) (price : ℚ)
  | orderSubmitted (order_id : String)
  | orderNotFound (order_id : String)
  | cannotCancel (status : OrderStatus)
  | orderCanceled (order_id : String) (quantity : ℚ) (symbol : String)
deriving DecidableEq, Repr

/-- Result dict of PaperTradingService.submit_order, together with the
final state of the (mutated) account and whether save_account ran. -/
structure SubmitResult where
  success : Bool
  message : Msg
  order : Order
  trade : Option Trade
  account : PaperAccount
  saved : Bool
deriving DecidableEq, Repr

/-- Common tail of the MARKET branch of submit_order (lines 195-200 of
paper_trading.py): store the order and the trade in the account, persist,
and return a success result. -/
def recordAndSave (order : Order) (trade : Trade) (account : PaperAccount)
    (message : Msg) : SubmitResult :=
  let account := { account with
    orders := dictInsert account.orders order.order_id order
    trades := account.trades ++ [trade] }
  { success := true, message := message, order := order, trade := some trade
    account := account, saved := true }

/-- PaperTradingService.submit_order (paper_trading.py lines 97-210).
Parameters trade_id, now and today stand for generate_id("trade"),
datetime.datetime.now() and now().strftime of the date. The result is
none exactly when the Python code raises an uncaught exception (the
ZeroDivisionError of the cost-basis update, or the KeyError of an
unreachable positions lookup). -/
def submit_order (order : Order) (account : PaperAccount)
    (execution_price : ℚ) (trade_id : String) (now : String)
    (today : String) : Option SubmitResult :=
  if order.order_type = OrderType.MARKET then
    let order : Order := { order with
      status := OrderStatus.EXECUTED
      executed_at := some now
      execution_price := some execution_price }
    let trade : Trade := {
      trade_id := trade_id
      order_id := order.order_id
      symbol := order.symbol
      action := order.action
      quantity := order.quantity
      price := execution_price
      timestamp := now
      commission := 4.95 }
    let trade_value : ℚ := order.quantity * execution_price
    let commission : ℚ := trade.commission
    match order.action with
    | OrderAction.BUY | OrderAction.BUY_TO_COVER =>
      if account.cash < trade_value + commission then
        some { success := false
               message := Msg.insufficientFunds (trade_value + commission) account.cash
               order := order, trade := some trade, account := account
               saved := false }
      else
        let account := { account with cash := account.cash - (trade_value + commission) }
        match dictFind account.positions order.symbol with
        | some position =>
          let total_shares := position.quantity + order.quantity
          let total_cost := position.quantity * position.cost_basis + trade_value
          if total_shares = 0 then
            none
          else
            let position := { position with
              quantity := total_shares
              cost_basis := total_cost / total_shares }
            let account := { account with
              positions := dictInsert account.positions order.symbol position }
            some (recordAndSave order trade account
              (Msg.bought order.quantity order.symbol execution_price))
        | none =>
          let account := { account with
            positions := dictInsert account.positions order.symbol
              { symbol := order.symbol
                quantity := order.quantity
                cost_basis := execution_price } }
          some (recordAndSave order trade account
            (Msg.bought order.quantity order.symbol execution_price))
    | OrderAction.SELL | OrderAction.SELL_SHORT =>
      let insufficient : Bool :=
        order.action == OrderAction.SELL &&
          (match dictFind account.positions order.symbol with
           | none => true
           | some p => decide (p.quantity < order.quantity))
      if insufficient then
        let available : ℚ :=
          match dictFind account.positions order.symbol with
          | some p => p.quantity
          | none => 0
        some { success := false
               message := Msg.insufficientShares order.quantity available
               order := order, trade := some trade, account := account
               saved := false }
      else
        let account := { account with cash := account.cash + (trade_value - commission) }
        if order.action = OrderAction.SELL then
          match dictFind account.positions order.symbol with
          | none => none
          | some position =>
            let position := { position with quantity := position.quantity - order.quantity }
            let account := { account with
              positions := dictInsert account.positions order.symbol position }
            let account :=
              if position.quantity = 0 then
                let realized_pl := trade_value - order.quantity * position.cost_basis
                let prev : ℚ :=
                  match dictFind account.daily_pl today with
                  | some v => v
                  | none => 0
                { account with
                  daily_pl := dictInsert account.daily_pl today (prev + realized_pl)
                  positions := dictErase account.positions order.symbol }
              else account
            some (recordAndSave order trade account
              (Msg.sold order.quantity order.symbol execution_price))
        else
          let account := { account with
            positions := dictInsert account.positions order.symbol
              { symbol := order.symbol
                quantity := -order.quantity
                cost_basis := execution_price } }
          some (recordAndSave order trade account
            (Msg.soldShort order.quantity order.symbol execution_price))
  else
    let account := { account with
      orders := dictInsert account.orders order.order_id order }
    some { success := true, message := Msg.orderSubmitted order.order_id
           order := order, trade := none, account := account, saved := true }

/-- Result dict of PaperTradingService.cancel_order, plus the final
account and whether save_account ran. -/
structure CancelResult where
  success : Bool
  message : Msg
  account : PaperAccount
  saved : Bool
deriving DecidableEq, Repr

/-- PaperTradingService.cancel_order (paper_trading.py lines 212-237). -/
def cancel_order (order_id : String) (account : PaperAccount) : CancelResult :=
  match dictFind account.orders order_id with
  | none =>
    { success := false, message := Msg.orderNotFound order_id
      account := account, saved := false }
  | some order =>
    if order.status ≠ OrderStatus.OPEN then
      { success := false, message := Msg.cannotCancel order.status
        account := account, saved := false }
    else
      let order := { order with status := OrderStatus.CANCELED }
      let account := { account with orders := dictInsert account.orders order_id order }
      { success := true
        message := Msg.orderCanceled order_id order.quantity order.symbol
        account := account, saved := true }

/-- PaperTradingService.create_order (paper_trading.py lines 65-94).
order_id stands for generate_id("order") and submitted_at for the
default_factory datetime.datetime.now() of the Order model. The risk
check against current_price only emits a log warning (no behavioral
effect), so current_price does not influence the result. -/
def create_order (symbol : String) (action : OrderAction) (quantity : ℚ)
    (order_type : OrderType) (limit_price : Option ℚ) (stop_price : Option ℚ)
    (current_price : Option ℚ) (order_id : String) (submitted_at : String) :
    Order :=
  { order_id := order_id
    symbol := symbol.toUpper
    action := action
    quantity := quantity
    order_type := order_type
    limit_price := limit_price
    stop_price := stop_price
    status := OrderStatus.OPEN
    submitted_at := submitted_at }

/-- Outcome of the input-validation prefix of the submit_order MCP tool. -/
inductive ToolValidation where
  | errorLimitPriceRequired
  | errorQuantityNotPositive
  | proceed
deriving DecidableEq, Repr

/-- Input validation performed by the submit_order MCP tool (trading.py
lines 172-177) after parsing the action and order type. In the tool these
checks run before PaperTradingService.load_account (line 180) and before
any quote fetch, order creation or submission; an error returns
immediately without touching the account. -/
def submit_order_validate (order_type : OrderType) (quantity : ℚ)
    (limit_price : Option ℚ) : ToolValidation :=
  if order_type = OrderType.LIMIT ∧ limit_price = none then
    ToolValidation.errorLimitPriceRequired
  else if quantity ≤ 0 then
    ToolValidation.errorQuantityNotPositive
  else
    ToolValidation.proceed

/-- Entry of the portfolio_dict built by analyze_portfolio. -/
structure PortfolioEntry where
  value : ℚ
  weight : ℚ
  unrealized_pl : ℚ
  unrealized_pl_percent : ℚ
deriving DecidableEq, Repr

/-- Stable insertion of an element in front of the first entry le accepts;
used to model Python sorted(..., reverse=True), which is a stable sort. -/
def insertSorted {α : Type} (le : α → α → Bool) (x : α) : List α → List α
  | [] => [x]
  | y :: ys => if le x y then x :: y :: ys else y :: insertSorted le x ys

/-- Stable sort modelling Python sorted with a key and reverse=True. -/
def stableSort {α : Type} (le : α → α → Bool) : List α → List α
  | [] => []
  | x :: xs => insertSorted le x (stableSort le xs)

/-- Maximum of a list of rationals with fallback 0 (Python max(...)). -/
def listMax : List ℚ → ℚ
  | [] => 0
  | x :: xs => xs.foldl max x

/-- Minimum of a list of rationals with fallback 0 (Python min(...)). -/
def listMin : List ℚ → ℚ
  | [] => 0
  | x :: xs => xs.foldl min x

/-- Result dict of PaperTradingService.analyze_portfolio. -/
structure PortfolioAnalysis where
  total_value : ℚ
  cash : ℚ
  cash_percent : ℚ
  invested : ℚ
  invested_percent : ℚ
  total_unrealized_pl : ℚ
  total_unrealized_pl_percent : ℚ
  positions : List (String × PortfolioEntry)
  num_positions : Nat
  most_concentrated : Option (String × ℚ)
  daily_pl_avg_best_worst : Option (ℚ × ℚ × ℚ)
deriving DecidableEq, Repr

/-- PaperTradingService.analyze_portfolio (paper_trading.py lines
248-316). Returns none on the "No positions in portfolio to analyze."
early exit. Python `x or 0` on an optional float yields 0 for both None
and 0.0, which Option.getD 0 reproduces. -/
def analyze_portfolio (account : PaperAccount) : Option PortfolioAnalysis :=
  if account.positions = [] then
    none
  else
    let total_value : ℚ :=
      account.cash + (account.positions.map (fun kv => kv.2.market_value.getD 0)).sum
    let total_invested : ℚ :=
      (account.positions.map (fun kv => kv.2.quantity * kv.2.cost_basis)).sum
    let portfolio_dict : List (String × PortfolioEntry) :=
      account.positions.map (fun kv =>
        (kv.1,
          { value := kv.2.market_value.getD 0
            weight :=
              if total_value > 0 then (kv.2.market_value.getD 0) / total_value * 100
              else 0
            unrealized_pl := kv.2.unrealized_pl.getD 0
            unrealized_pl_percent := kv.2.unrealized_pl_percent.getD 0 }))
    let sorted_positions :=
      stableSort (fun a b => decide (b.2.value ≤ a.2.value)) portfolio_dict
    let total_unrealized_pl : ℚ :=
      (sorted_positions.map (fun e => e.2.unrealized_pl)).sum
    let total_unrealized_pl_percent : ℚ :=
      if total_invested > 0 then total_unrealized_pl / total_invested * 100 else 0
    some {
      total_value := total_value
      cash := account.cash
      cash_percent := if total_value > 0 then account.cash / total_value * 100 else 0
      invested := total_value - account.cash
      invested_percent :=
        if total_value > 0 then (total_value - account.cash) / total_value * 100 else 0
      total_unrealized_pl := total_unrealized_pl
      total_unrealized_pl_percent := total_unrealized_pl_percent
      positions := sorted_positions
      num_positions := sorted_positions.length
      most_concentrated :=
        match sorted_positions with
        | [] => none
        | e :: _ => some (e.1, e.2.weight)
      daily_pl_avg_best_worst :=
        if account.daily_pl = [] then none
        else
          let vals := account.daily_pl.map Prod.snd
          some (vals.sum / (vals.length : ℚ), listMax vals, listMin vals) }

/-- Sum of quantity times cost_basis over the positions of an account;
the total_invested accumulator of analyze_portfolio, and the denominator
named by the specification. -/
def totalInvested (account : PaperAccount) : ℚ :=
  (account.positions.map (fun kv => kv.2.quantity * kv.2.cost_basis)).sum

/-- Sum of the per-position unrealized P and L (None read as 0) over the
positions of an account, in insertion order; the numerator named by the
specification. -/
def totalUnrealizedPl (account : PaperAccount) : ℚ :=
  (account.positions.map (fun kv => kv.2.unrealized_pl.getD 0)).sum

/-- JSON values as produced by json.load. -/
inductive Json where
  | null
  | bool (b : Bool)
  | num (n : ℚ)
  | str (s : String)
  | arr (elems : List Json)
  | obj (fields : List (String × Json))
deriving Repr

/-- State of the persisted snapshot file as seen by load_json_file:
missing, unreadable (open or read raises), readable but not valid JSON
(json.load raises), or readable with JSON value j. -/
inductive FileState where
  | absent
  | unreadable
  | invalidJson
  | content (j : Json)
deriving Repr

/-- load_json_file of utils.py (lines 23-37) at the default of None: a
missing file and any caught read or parse exception return the default. -/
def load_json_file : FileState → Option Json
  | FileState.absent => none
  | FileState.unreadable => none
  | FileState.invalidJson => none
  | FileState.content j => some j

/-- Python truthiness of a JSON value, for the `if data:` test of
load_account. -/
def Json.truthy : Json → Bool
  | .null => false
  | .bool b => b
  | .num n => decide (n ≠ 0)
  | .str s => !(s == "")
  | .arr l => !l.isEmpty
  | .obj l => !l.isEmpty

/-- Required field lookup during model validation. -/
def fieldReq {α : Type} (fields : List (String × Json)) (name : String)
    (validate : Json → Except String α) : Except String α :=
  match dictFind fields name with
  | none => Except.error ("Field required: " ++ name)
  | some j => validate j

/-- Optional field lookup during model validation: absent or JSON null
reads as None. -/
def fieldOpt {α : Type} (fields : List (String × Json)) (name : String)
    (validate : Json → Except String α) : Except String (Option α) :=
  match dictFind fields name with
  | none => Except.ok none
  | some Json.null => Except.ok none
  | some j => (validate j).map some

/-- Field with a default value during model validation. -/
def fieldD {α : Type} (fields : List (String × Json)) (name : String)
    (default : α) (validate : Json → Except String α) : Except String α :=
  match dictFind fields name with
  | none => Except.ok default
  | some j => validate j

/-- Validation of a float field. Lax numeric coercions of pydantic
(numeric strings) are not modelled; no claim depends on them. -/
def validateFloat : Json → Except String ℚ
  | Json.num n => Except.ok n
  | _ => Except.error "Input should be a valid number"

/-- Validation of a str field. -/
def validateStr : Json → Except String String
  | Json.str s => Except.ok s
  | _ => Except.error "Input should be a valid string"

/-- Validation of an OrderAction field from its string value. -/
def validateAction : Json → Except String OrderAction
  | Json.str "BUY" => Except.ok OrderAction.BUY
  | Json.str "SELL" => Except.ok OrderAction.SELL
  | Json.str "BUY_TO_COVER" => Except.ok OrderAction.BUY_TO_COVER
  | Json.str "SELL_SHORT" => Except.ok OrderAction.SELL_SHORT
  | _ => Except.error "Input should be a valid OrderAction"

/-- Validation of an OrderType field from its string value. -/
def validateOrderType : Json → Except String OrderType
  | Json.str "MARKET" => Except.ok OrderType.MARKET
  | Json.str "LIMIT" => Except.ok OrderType.LIMIT
  | Json.str "STOP" => Except.ok OrderType.STOP
  | Json.str "STOP_LIMIT" => Except.ok OrderType.STOP_LIMIT
  | Json.str "TRAILING_STOP" => Except.ok OrderType.TRAILING_STOP
  | _ => Except.error "Input should be a valid OrderType"

/-- Validation of an OrderStatus field from its string value. -/
def validateStatus : Json → Except String OrderStatus
  | Json.str "OPEN" => Except.ok OrderStatus.OPEN
  | Json.str "EXECUTED" => Except.ok OrderStatus.EXECUTED
  | Json.str "CANCELED" => Except.ok OrderStatus.CANCELED
  | Json.str "REJECTED" => Except.ok OrderStatus.REJECTED
  | Json.str "EXPIRED" => Except.ok OrderStatus.EXPIRED
  | _ => Except.error "Input should be a valid OrderStatus"

/-- Validation of a datetime field. Datetimes are opaque strings in this
embedding, so any string is accepted (pydantic additionally checks the
ISO format; no claim depends on that). -/
def validateDatetime : Json → Except String String
  | Json.str s => Except.ok s
  | _ => Except.error "Input should be a valid datetime"

/-- Validation of a Position (pydantic model of models.py). -/
def validatePosition : Json → Except String Position
  | Json.obj fields => do
    let symbol ← fieldReq fields "symbol" validateStr
    let quantity ← fieldReq fields "quantity" validateFloat
    let cost_basis ← fieldReq fields "cost_basis" validateFloat
    let current_price ← fieldOpt fields "current_price" validateFloat
    let market_value ← fieldOpt fields "market_value" validateFloat
    let unrealized_pl ← fieldOpt fields "unrealized_pl" validateFloat
    let unrealized_pl_percent ← fieldOpt fields "unrealized_pl_percent" validateFloat
    pure { symbol := symbol, quantity := quantity, cost_basis := cost_basis
           current_price := current_price, market_value := market_value
           unrealized_pl := unrealized_pl
           unrealized_pl_percent := unrealized_pl_percent }
  | _ => Except.error "Input should be a valid dictionary"

/-- Validation of an Order (pydantic model of models.py). The
default_factory datetime.datetime.now() of submitted_at is modelled by
the empty string. -/
def validateOrder : Json → Except String Order
  | Json.obj fields => do
    let order_id ← fieldReq fields "order_id" validateStr
    let symbol ← fieldReq fields "symbol" validateStr
    let action ← fieldReq fields "action" validateAction
    let quantity ← fieldReq fields "quantity" validateFloat
    let order_type ← fieldReq fields "order_type" validateOrderType
    let limit_price ← fieldOpt fields "limit_price" validateFloat
    let stop_price ← fieldOpt fields "stop_price" validateFloat
    let status ← fieldD fields "status" OrderStatus.OPEN validateStatus
    let submitted_at ← fieldD fields "submitted_at" "" validateDatetime
    let executed_at ← fieldOpt fields "executed_at" validateDatetime
    let execution_price ← fieldOpt fields "execution_price" validateFloat
    pure { order_id := order_id, symbol := symbol, action := action
           quantity := quantity, order_type := order_type
           limit_price := limit_price, stop_price := stop_price
           status := status, submitted_at := submitted_at
           executed_at := executed_at, execution_price := execution_price }
  | _ => Except.error "Input should be a valid dictionary"

/-- Validation of a Trade (pydantic model of models.py). -/
def validateTrade : Json → Except String Trade
  | Json.obj fields => do
    let trade_id ← fieldReq fields "trade_id" validateStr
    let order_id ← fieldReq fields "order_id" validateStr
    let symbol ← fieldReq fields "symbol" validateStr
    let action ← fieldReq fields "action" validateAction
    let quantity ← fieldReq fields "quantity" validateFloat
    let price ← fieldReq fields "price" validateFloat
    let timestamp ← fieldReq fields "timestamp" validateDatetime
    let commission ← fieldD fields "commission" (0 : ℚ) validateFloat
    pure { trade_id := trade_id, order_id := order_id, symbol := symbol
           action := action, quantity := quantity, price := price
           timestamp := timestamp, commission := commission }
  | _ => Except.error "Input should be a valid dictionary"

/-- Validation of a Dict[str, V] field. -/
def validateDict {α : Type} (validate : Json → Except String α) :
    Json → Except String (List (String × α))
  | Json.obj fields =>
    fields.mapM (fun kv => (validate kv.2).map (fun v => (kv.1, v)))
  | _ => Except.error "Input should be a valid dictionary"

/-- Validation of a List[V] field. -/
def validateList {α : Type} (validate : Json → Except String α) :
    Json → Except String (List α)
  | Json.arr elems => elems.mapM validate
  | _ => Except.error "Input should be a valid list"

/-- PaperAccount.model_validate (pydantic). A non-dict input is rejected;
each field is validated against the model of models.py, with the declared
defaults for absent fields. -/
def model_validate : Json → Except String PaperAccount
  | Json.obj fields => do
    let cash ← fieldD fields "cash" (100000 : ℚ) validateFloat
    let positions ← fieldD fields "positions" [] (validateDict validatePosition)
    let orders ← fieldD fields "orders" [] (validateDict validateOrder)
    let trades ← fieldD fields "trades" [] (validateList validateTrade)
    let daily_pl ← fieldD fields "daily_pl" [] (validateDict validateFloat)
    pure { cash := cash, positions := positions, orders := orders
           trades := trades, daily_pl := daily_pl }
  | _ => Except.error "Input should be a valid dictionary or instance of PaperAccount"

/-- PaperTradingService.setup_account (paper_trading.py lines 44-50):
builds a fresh PaperAccount with the given cash (default 100000.0) and
the empty-collection defaults of the model, then persists it. -/
def setup_account (cash : ℚ) : PaperAccount :=
  { cash := cash }

/-- PaperTradingService.load_account (paper_trading.py lines 28-37). The
Bool of the result records whether a fresh account was created and
persisted through setup_account; Except.error models a pydantic
ValidationError propagating out of model_validate. -/
def load_account (fs : FileState) : Except String (PaperAccount × Bool) :=
  match load_json_file fs with
  | some data =>
    if data.truthy then
      (model_validate data).map (fun a => (a, false))
    else
      Except.ok (setup_account 100000, true)
  | none => Except.ok (setup_account 100000, true)

/-- Side of a market operation in a buy and sell sequence. -/
inductive Side where
  | buy
  | sell
deriving DecidableEq, Repr

/-- OrderAction of a side. -/
def Side.action : Side → OrderAction
  | Side.buy => OrderAction.BUY
  | Side.sell => OrderAction.SELL

/-- One MARKET buy or sell submission of a sequence: its parameters plus
the runtime-supplied identifiers, timestamps and execution price. -/
structure MarketOp where
  side : Side
  symbol : String
  quantity : ℚ
  price : ℚ
  order_id : String
  trade_id : String
  now : String
  today : String
deriving Repr

/-- MARKET order submitted for a MarketOp. -/
def MarketOp.order (op : MarketOp) : Order :=
  { order_id := op.order_id
    symbol := op.symbol
    action := op.side.action
    quantity := op.quantity
    order_type := OrderType.MARKET
    submitted_at := op.now }

/-- Submission of a sequence of MARKET operations, stopping with none as
soon as one submission raises or is rejected; some holds the account
after a run in which every submission succeeded. -/
def runOps (account : PaperAccount) : List MarketOp → Option PaperAccount
  | [] => some account
  | op :: rest =>
    match submit_order op.order account op.price op.trade_id op.now op.today with
    | some r => if r.success then runOps r.account rest else none
    | none => none

/-- Total cost quantity times execution price of the buy legs of a
sequence. -/
def buyTotal (ops : List MarketOp) : ℚ :=
  (ops.map (fun op => if op.side = Side.buy then op.quantity * op.price else 0)).sum

/-- Total proceeds quantity times execution price of the sell legs of a
sequence. -/
def sellTotal (ops : List MarketOp) : ℚ :=
  (ops.map (fun op => if op.side = Side.sell then op.quantity * op.price else 0)).sum

theorem dictFind_insert_self {α : Type} (m : List (String × α)) (k : String) (v : α) :
    dictFind (dictInsert m k v) k = some v := by
  induction m with
  | nil => simp [dictInsert, dictFind]
  | cons kv rest ih =>
    by_cases h : kv.1 = k
    · simp [dictInsert, dictFind, h]
    · simp [dictInsert, dictFind, h, ih]

theorem dictFind_erase_self {α : Type} (m : List (String × α)) (k : String) :
    dictFind (dictErase m k) k = none := by
  induction m with
  | nil => simp [dictErase, dictFind]
  | cons kv rest ih =>
    by_cases h : kv.1 = k
    · simpa [dictErase, dictFind, h] using ih
    · simpa [dictErase, dictFind, h] using ih

theorem insertSorted_perm {α : Type} (le : α → α → Bool) (x : α) (l : List α) :
    (insertSorted le x l).Perm (x :: l) := by
  induction l with
  | nil => simp [insertSorted]
  | cons y ys ih =>
    simp only [insertSorted]
    split
    · exact List.Perm.refl _
    · exact (ih.cons y).trans (List.Perm.swap x y ys)

theorem stableSort_perm {α : Type} (le : α → α → Bool) (l : List α) :
    (stableSort le l).Perm l := by
  induction l with
  | nil => simp [stableSort]
  | cons x xs ih =>
    exact (insertSorted_perm le x (stableSort le xs)).trans (ih.cons x)

theorem submit_order_buy_new_position
    (order : Order) (account : PaperAccount) (px : ℚ) (tid now today : String)
    (ho : order.order_type = OrderType.MARKET)
    (ha : order.action = OrderAction.BUY ∨ order.action = OrderAction.BUY_TO_COVER)
    (hc : ¬ account.cash < order.quantity * px + 4.95)
    (hfind : dictFind account.positions order.symbol = none) :
    submit_order order account px tid now today =
      some { success := true,
             message := Msg.bought order.quantity order.symbol px,
             order := { order with status := OrderStatus.EXECUTED,
                                   executed_at := some now,
                                   execution_price := some px },
             trade := some { trade_id := tid, order_id := order.order_id,
                             symbol := order.symbol, action := order.action,
                             quantity := order.quantity, price := px,
                             timestamp := now, commission := 4.95 },
             account := { account with
               cash := account.cash - (order.quantity * px + 4.95),
               positions := dictInsert account.positions order.symbol
                 { symbol := order.symbol, quantity := order.quantity,
                   cost_basis := px },
               orders := dictInsert account.orders order.order_id
                 { order with status := OrderStatus.EXECUTED,
                              executed_at := some now,
                              execution_price := some px },
               trades := account.trades ++
                 [{ trade_id := tid, order_id := order.order_id,
                    symbol := order.symbol, action := order.action,
                    quantity := order.quantity, price := px,
                    timestamp := now, commission := 4.95 }] },
             saved := true } := by
  rcases ha with ha | ha <;>
    simp [submit_order, recordAndSave, ho, ha, hc, hfind]

theorem submit_order_buy_existing_position
    (order : Order) (account : PaperAccount) (px : ℚ) (tid now today : String)
    (p : Position)
    (ho : order.order_type = OrderType.MARKET)
    (ha : order.action = OrderAction.BUY ∨ order.action = OrderAction.BUY_TO_COVER)
    (hc : ¬ account.cash < order.quantity * px + 4.95)
    (hfind : dictFind account.positions order.symbol = some p)
    (hnz : ¬ p.quantity + order.quantity = 0) :
    submit_order order account px tid now today =
      some { success := true,
             message := Msg.bought order.quantity order.symbol px,
             order := { order with status := OrderStatus.EXECUTED,
                                   executed_at := some now,
                                   execution_price := some px },
             trade := some { trade_id := tid, order_id := order.order_id,
                             symbol := order.symbol, action := order.action,
                             quantity := order.quantity, price := px,
                             timestamp := now, commission := 4.95 },
             account := { account with
               cash := account.cash - (order.quantity * px + 4.95),
               positions := dictInsert account.positions order.symbol
                 { p with quantity := p.quantity + order.quantity,
                          cost_basis := (p.quantity * p.cost_basis + order.quantity * px) /
                            (p.quantity + order.quantity) },
               orders := dictInsert account.orders order.order_id
                 { order with status := OrderStatus.EXECUTED,
                              executed_at := some now,
                              execution_price := some px },
               trades := account.trades ++
                 [{ trade_id := tid, order_id := order.order_id,
                    symbol := order.symbol, action := order.action,
                    quantity := order.quantity, price := px,
                    timestamp := now, commission := 4.95 }] },
             saved := true } := by
  rcases ha with ha | ha <;>
    simp [submit_order, recordAndSave, ho, ha, hc, hfind, hnz]

theorem submit_order_buy_zero_denominator
    (order : Order) (account : PaperAccount) (px : ℚ) (tid now today : String)
    (p : Position)
    (ho : order.order_type = OrderType.MARKET)
    (ha : order.action = OrderAction.BUY ∨ order.action = OrderAction.BUY_TO_COVER)
    (hc : ¬ account.cash < order.quantity * px + 4.95)
    (hfind : dictFind account.positions order.symbol = some p)
    (hz : p.quantity + order.quantity = 0) :
    submit_order order account px tid now today = none := by
  rcases ha with ha | ha <;>
    simp [submit_order, ho, ha, hc, hfind, hz]

theorem submit_order_buy_rejected
    (order : Order) (account : PaperAccount) (px : ℚ) (tid now today : String)
    (ho : order.order_type = OrderType.MARKET)
    (ha : order.action = OrderAction.BUY ∨ order.action = OrderAction.BUY_TO_COVER)
    (hc : account.cash < order.quantity * px + 4.95) :
    submit_order order account px tid now today =
      some { success := false,
             message := Msg.insufficientFunds (order.quantity * px + 4.95) account.cash,
             order := { order with status := OrderStatus.EXECUTED,
                                   executed_at := some now,
                                   execution_price := some px },
             trade := some { trade_id := tid, order_id := order.order_id,
                             symbol := order.symbol, action := order.action,
                             quantity := order.quantity, price := px,
                             timestamp := now, commission := 4.95 },
             account := account,
             saved := false } := by
  rcases ha with ha | ha <;> simp [submit_order, ho, ha, hc]

theorem submit_order_sell_rejected
    (order : Order) (account : PaperAccount) (px : ℚ) (tid now today : String)
    (ho : order.order_type = OrderType.MARKET)
    (ha : order.action = OrderAction.SELL)
    (hins : ∀ p, dictFind account.positions order.symbol = some p →
      p.quantity < order.quantity) :
    submit_order order account px tid now today =
      some { success := false,
             message := Msg.insufficientShares order.quantity
               (match dictFind account.positions order.symbol with
                | some p => p.quantity
                | none => 0),
             order := { order with status := OrderStatus.EXECUTED,
                                   executed_at := some now,
                                   execution_price := some px },
             trade := some { trade_id := tid, order_id := order.order_id,
                             symbol := order.symbol, action := order.action,
                             quantity := order.quantity, price := px,
                             timestamp := now, commission := 4.95 },
             account := account,
             saved := false } := by
  cases hfind : dictFind account.positions order.symbol with
  | none => simp [submit_order, ho, ha, hfind]
  | some p =>
    have hp := hins p hfind
    simp [submit_order, ho, ha, hfind, hp]

theorem submit_order_sell_reduces_position
    (order : Order) (account : PaperAccount) (px : ℚ) (tid now today : String)
    (p : Position)
    (ho : order.order_type = OrderType.MARKET)
    (ha : order.action = OrderAction.SELL)
    (hfind : dictFind account.positions order.symbol = some p)
    (hq : ¬ p.quantity < order.quantity)
    (hnz : ¬ p.quantity - order.quantity = 0) :
    submit_order order account px tid now today =
      some { success := true,
             message := Msg.sold order.quantity order.symbol px,
             order := { order with status := OrderStatus.EXECUTED,
                                   executed_at := some now,
                                   execution_price := some px },
             trade := some { trade_id := tid, order_id := order.order_id,
                             symbol := order.symbol, action := order.action,
                             quantity := order.quantity, price := px,
                             timestamp := now, commission := 4.95 },
             account := { account with
               cash := account.cash + (order.quantity * px - 4.95),
               positions := dictInsert account.positions order.symbol
                 { p with quantity := p.quantity - order.quantity },
               orders := dictInsert account.orders order.order_id
                 { order with status := OrderStatus.EXECUTED,
                              executed_at := some now,
                              execution_price := some px },
               trades := account.trades ++
                 [{ trade_id := tid, order_id := order.order_id,
                    symbol := order.symbol, action := order.action,
                    quantity := order.quantity, price := px,
                    timestamp := now, commission := 4.95 }] },
             saved := true } := by
  simp [submit_order, recordAndSave, ho, ha, hfind, hq, hnz]

theorem submit_order_sell_full
    (order : Order) (account : PaperAccount) (px : ℚ) (tid now today : String)
    (p : Position)
    (ho : order.order_type = OrderType.MARKET)
    (ha : order.action = OrderAction.SELL)
    (hfind : dictFind account.positions order.symbol = some p)
    (hz : p.quantity = order.quantity) :
    submit_order order account px tid now today =
      some { success := true,
             message := Msg.sold order.quantity order.symbol px,
             order := { order with status := OrderStatus.EXECUTED,
                                   executed_at := some now,
                                   execution_price := some px },
             trade := some { trade_id := tid, order_id := order.order_id,
                             symbol := order.symbol, action := order.action,
                             quantity := order.quantity, price := px,
                             timestamp := now, commission := 4.95 },
             account := { account with
               cash := account.cash + (order.quantity * px - 4.95),
               positions := dictErase
                 (dictInsert account.positions order.symbol
                   { p with quantity := p.quantity - order.quantity })
                 order.symbol,
               orders := dictInsert account.orders order.order_id
                 { order with status := OrderStatus.EXECUTED,
                              executed_at := some now,
                              execution_price := some px },
               trades := account.trades ++
                 [{ trade_id := tid, order_id := order.order_id,
                    symbol := order.symbol, action := order.action,
                    quantity := order.quantity, price := px,
                    timestamp := now, commission := 4.95 }],
               daily_pl := dictInsert account.daily_pl today
                 ((match dictFind account.daily_pl today with
                   | some v => v
                   | none => 0) +
                  (order.quantity * px - order.quantity * p.cost_basis)) },
             saved := true } := by
  have hq : ¬ p.quantity < order.quantity := by
    rw [hz]; exact lt_irrefl _
  have hdz : p.quantity - order.quantity = 0 := by
    rw [hz]; ring
  simp [submit_order, recordAndSave, ho, ha, hfind, hq, hdz]

theorem submit_order_sell_short
    (order : Order) (account : PaperAccount) (px : ℚ) (tid now today : String)
    (ho : order.order_type = OrderType.MARKET)
    (ha : order.action = OrderAction.SELL_SHORT) :
    submit_order order account px tid now today =
      some { success := true,
             message := Msg.soldShort order.quantity order.symbol px,
             order := { order with status := OrderStatus.EXECUTED,
                                   executed_at := some now,
                                   execution_price := some px },
             trade := some { trade_id := tid, order_id := order.order_id,
                             symbol := order.symbol, action := order.action,
                             quantity := order.quantity, price := px,
                             timestamp := now, commission := 4.95 },
             account := { account with
               cash := account.cash + (order.quantity * px - 4.95),
               positions := dictInsert account.positions order.symbol
                 { symbol := order.symbol, quantity := -order.quantity,
                   cost_basis := px },
               orders := dictInsert account.orders order.order_id
                 { order with status := OrderStatus.EXECUTED,
                              executed_at := some now,
                              execution_price := some px },
               trades := account.trades ++
                 [{ trade_id := tid, order_id := order.order_id,
                    symbol := order.symbol, action := order.action,
                    quantity := order.quantity, price := px,
                    timestamp := now, commission := 4.95 }] },
             saved := true } := by
  simp [submit_order, recordAndSave, ho, ha]

theorem submit_order_success_cash
    (order : Order) (account : PaperAccount) (px : ℚ) (tid now today : String)
    (r : SubmitResult)
    (ho : order.order_type = OrderType.MARKET)
    (h : submit_order order account px tid now today = some r)
    (hs : r.success = true) :
    r.account.cash = account.cash +
      (match order.action with
       | OrderAction.BUY | OrderAction.BUY_TO_COVER => -(order.quantity * px + 4.95)
       | OrderAction.SELL | OrderAction.SELL_SHORT => order.quantity * px - 4.95) := by
  cases hact : order.action with
  | BUY | BUY_TO_COVER =>
    by_cases hc : account.cash < order.quantity * px + 4.95
    · rw [submit_order_buy_rejected order account px tid now today ho
        (by rw [hact]; simp) hc] at h
      cases h
      simp at hs
    · cases hfind : dictFind account.positions order.symbol with
      | none =>
        rw [submit_order_buy_new_position order account px tid now today ho
          (by rw [hact]; simp) hc hfind] at h
        cases h
        simp
        ring
      | some p =>
        by_cases hz : p.quantity + order.quantity = 0
        · rw [submit_order_buy_zero_denominator order account px tid now today p ho
            (by rw [hact]; simp) hc hfind hz] at h
          cases h
        · rw [submit_order_buy_existing_position order account px tid now today p ho
            (by rw [hact]; simp) hc hfind hz] at h
          cases h
          simp
          ring
  | SELL =>
    by_cases hins : ∀ p, dictFind account.positions order.symbol = some p →
        p.quantity < order.quantity
    · rw [submit_order_sell_rejected order account px tid now today ho hact hins] at h
      cases h
      simp at hs
    · push_neg at hins
      obtain ⟨p, hfind, hq⟩ := hins
      by_cases hz : p.quantity - order.quantity = 0
      · have hz2 : p.quantity = order.quantity := by linarith [sub_eq_zero.mp hz]
        rw [submit_order_sell_full order account px tid now today p ho hact hfind hz2] at h
        cases h
        simp
      · rw [submit_order_sell_reduces_position order account px tid now today p ho hact hfind
          (not_lt.mpr hq) hz] at h
        cases h
        simp
  | SELL_SHORT =>
    rw [submit_order_sell_short order account px tid now today ho hact] at h
    cases h
    simp

theorem buyTotal_cons (op : MarketOp) (ops : List MarketOp) :
    buyTotal (op :: ops) =
      (if op.side = Side.buy then op.quantity * op.price else 0) + buyTotal ops := by
  simp [buyTotal]

theorem sellTotal_cons (op : MarketOp) (ops : List MarketOp) :
    sellTotal (op :: ops) =
      (if op.side = Side.sell then op.quantity * op.price else 0) + sellTotal ops := by
  simp [sellTotal]

/-- C3: for every finite sequence of MARKET buy and sell submissions
against one account in which every submission succeeds, the final cash
equals the initial cash minus the sum of each buy leg's quantity times
execution price, plus the sum of each sell leg's quantity times execution
price, minus one 4.95 commission per executed trade. -/
theorem sequence_cash_conservation (ops : List MarketOp) :
    ∀ account final : PaperAccount, runOps account ops = some final →
      final.cash = account.cash - buyTotal ops + sellTotal ops -
        (ops.length : ℚ) * 4.95 := by
  induction ops with
  | nil =>
    intro account final h
    simp [runOps] at h
    subst h
    simp [buyTotal, sellTotal]
  | cons op rest ih =>
    intro account final h
    simp only [runOps] at h
    cases hsub : submit_order op.order account op.price op.trade_id op.now op.today with
    | none => rw [hsub] at h; cases h
    | some r =>
      rw [hsub] at h
      by_cases hs : r.success = true
      · simp only [hs, if_true] at h
        have hcash := submit_order_success_cash op.order account op.price op.trade_id
          op.now op.today r (by simp [MarketOp.order]) hsub hs
        have hrest := ih r.account final h
        rw [hrest, hcash, buyTotal_cons, sellTotal_cons]
        cases hside : op.side <;>
          simp [MarketOp.order, Side.action, hside] <;> ring
      · simp [hs] at h

/-- MARKET BUY order for 10 shares of AAPL, as in the spec's concrete
rejection scenario. -/
def oBuy10 : Order :=
  { order_id := "order-1", symbol := "AAPL", action := OrderAction.BUY,
    quantity := 10, order_type := OrderType.MARKET,
    submitted_at := "2025-01-02T09:30:00" }

/-- Account with 1000.0 cash and no positions. -/
def acctPoor : PaperAccount := { cash := 1000 }

/-- Account with 100000.0 cash holding 5 AAPL at cost basis 100.0. -/
def acctHolding : PaperAccount :=
  { cash := 100000,
    positions := [("AAPL", { symbol := "AAPL", quantity := 5, cost_basis := 100 })] }

/-- Account with 100000.0 cash holding a short position of -10 AAPL at
cost basis 100.0. -/
def acctShort : PaperAccount :=
  { cash := 100000,
    positions := [("AAPL", { symbol := "AAPL", quantity := -10, cost_basis := 100 })] }

/-- Placeholder result used as the getD fallback when naming the result
of a concrete submission; never actually selected. -/
def fallbackResult : SubmitResult :=
  { success := false, message := Msg.empty, order := oBuy10, trade := none,
    account := {}, saved := false }

/-- C1: a MARKET order whose execution is rejected for insufficient funds
(BUY or BUY_TO_COVER with cash below trade value plus commission) or for
insufficient shares (SELL with no position or held quantity below the
requested quantity) leaves the account's cash, positions, orders and
trades exactly as they were and does not invoke save_account. -/
theorem rejection_preserves_account
    (order : Order) (account : PaperAccount) (px : ℚ) (tid now today : String)
    (ho : order.order_type = OrderType.MARKET)
    (hrej : ((order.action = OrderAction.BUY ∨ order.action = OrderAction.BUY_TO_COVER) ∧
              account.cash < order.quantity * px + 4.95) ∨
            (order.action = OrderAction.SELL ∧
              ∀ p, dictFind account.positions order.symbol = some p →
                p.quantity < order.quantity)) :
    ∃ r, submit_order order account px tid now today = some r ∧
      r.success = false ∧
      r.account.cash = account.cash ∧
      r.account.positions = account.positions ∧
      r.account.orders = account.orders ∧
      r.account.trades = account.trades ∧
      r.saved = false := by
  rcases hrej with ⟨ha, hc⟩ | ⟨ha, hins⟩
  · exact ⟨_, submit_order_buy_rejected order account px tid now today ho ha hc,
      rfl, rfl, rfl, rfl, rfl, rfl⟩
  · exact ⟨_, submit_order_sell_rejected order account px tid now today ho ha hins,
      rfl, rfl, rfl, rfl, rfl, rfl⟩

/-- Witness for C1 at the spec's concrete scenario: a BUY of 10 shares at
price 150.0 against an account with cash 1000.0 is rejected and mutates
nothing. -/
theorem rejection_preserves_account_witness :
    ((submit_order oBuy10 acctPoor 150 "trade-1" "T1" "D1").getD fallbackResult).saved
        = false ∧
    ((submit_order oBuy10 acctPoor 150 "trade-1" "T1" "D1").getD fallbackResult).account.cash
        = acctPoor.cash ∧
    ((submit_order oBuy10 acctPoor 150 "trade-1" "T1" "D1").getD fallbackResult).account.trades
        = acctPoor.trades := by
  obtain ⟨r, hr, hsucc, hcash, hpos, hord, htr, hsav⟩ :=
    rejection_preserves_account oBuy10 acctPoor 150 "trade-1" "T1" "D1" rfl
      (Or.inl ⟨Or.inl rfl, by norm_num [acctPoor, oBuy10]⟩)
  rw [hr]
  simp only [Option.getD_some]
  exact ⟨hsav, hcash, htr⟩

/-- C2: a successful MARKET BUY or BUY_TO_COVER of quantity q2 at
execution price p2 on a symbol held at quantity q1 and cost basis p1 sets
the position's quantity to q1 plus q2 and its cost basis to
(q1 p1 + q2 p2) / (q1 + q2); on a symbol not held it creates a new
position with cost basis equal to the execution price. -/
theorem buy_cost_basis_update
    (order : Order) (account : PaperAccount) (px : ℚ) (tid now today : String)
    (r : SubmitResult)
    (ho : order.order_type = OrderType.MARKET)
    (ha : order.action = OrderAction.BUY ∨ order.action = OrderAction.BUY_TO_COVER)
    (h : submit_order order account px tid now today = some r)
    (hs : r.success = true) :
    (∀ p, dictFind account.positions order.symbol = some p →
      dictFind r.account.positions order.symbol =
        some { p with quantity := p.quantity + order.quantity,
                      cost_basis := (p.quantity * p.cost_basis + order.quantity * px) /
                        (p.quantity + order.quantity) }) ∧
    (dictFind account.positions order.symbol = none →
      dictFind r.account.positions order.symbol =
        some { symbol := order.symbol, quantity := order.quantity,
               cost_basis := px }) := by
  by_cases hc : account.cash < order.quantity * px + 4.95
  · rw [submit_order_buy_rejected order account px tid now today ho ha hc] at h
    cases h
    simp at hs
  · constructor
    · intro p hp
      by_cases hz : p.quantity + order.quantity = 0
      · rw [submit_order_buy_zero_denominator order account px tid now today p
          ho ha hc hp hz] at h
        cases h
      · rw [submit_order_buy_existing_position order account px tid now today p
          ho ha hc hp hz] at h
        cases h
        simp [dictFind_insert_self]
    · intro hp
      rw [submit_order_buy_new_position order account px tid now today ho ha hc hp] at h
      cases h
      simp [dictFind_insert_self]

/-- Witness for C2: buying 10 AAPL at 150.0 with 5 AAPL held at 100.0
yields 15 shares at cost basis 400/3 = (5*100 + 10*150) / 15. -/
theorem buy_cost_basis_update_witness :
    dictFind ((submit_order oBuy10 acctHolding 150 "trade-1" "T1" "D1").getD
      fallbackResult).account.positions "AAPL" =
      some { symbol := "AAPL", quantity := 15, cost_basis := 400 / 3 } := by
  have hsub := submit_order_buy_existing_position oBuy10 acctHolding 150
    "trade-1" "T1" "D1" { symbol := "AAPL", quantity := 5, cost_basis := 100 }
    rfl (Or.inl rfl) (by norm_num [acctHolding, oBuy10])
    (by simp [acctHolding, oBuy10, dictFind]) (by norm_num [oBuy10])
  have h := (buy_cost_basis_update oBuy10 acctHolding 150 "trade-1" "T1" "D1"
    _ rfl (Or.inl rfl) hsub rfl).1
    { symbol := "AAPL", quantity := 5, cost_basis := 100 }
    (by simp [acctHolding, oBuy10, dictFind])
  rw [hsub]
  simp only [Option.getD_some]
  norm_num [oBuy10] at h ⊢
  exact h

/-- C4: a successful MARKET SELL of exactly the full held quantity
removes the symbol from positions and adds trade value minus quantity
sold times cost basis to daily_pl for today, creating the entry if
absent. -/
theorem sell_full_position_realizes_pl
    (order : Order) (account : PaperAccount) (px : ℚ) (tid now today : String)
    (p : Position)
    (ho : order.order_type = OrderType.MARKET)
    (ha : order.action = OrderAction.SELL)
    (hfind : dictFind account.positions order.symbol = some p)
    (hq : p.quantity = order.quantity) :
    ∃ r, submit_order order account px tid now today = some r ∧
      r.success = true ∧
      dictFind r.account.positions order.symbol = none ∧
      dictFind r.account.daily_pl today =
        some ((match dictFind account.daily_pl today with
               | some v => v
               | none => 0) +
              (order.quantity * px - order.quantity * p.cost_basis)) := by
  refine ⟨_, submit_order_sell_full order account px tid now today p ho ha hfind hq,
    rfl, ?_, ?_⟩
  · simp [dictFind_erase_self]
  · simp [dictFind_insert_self]

/-- Order selling 5 AAPL at MARKET. -/
def oSell5 : Order :=
  { order_id := "order-2", symbol := "AAPL", action := OrderAction.SELL,
    quantity := 5, order_type := OrderType.MARKET,
    submitted_at := "2025-01-02T09:31:00" }

/-- Witness for C4: selling the full 5 AAPL held at 100.0 for 150.0
removes the position and books 250.0 = 750 - 500 into daily_pl. -/
theorem sell_full_position_realizes_pl_witness :
    dictFind ((submit_order oSell5 acctHolding 150 "trade-2" "T1" "D1").getD
      fallbackResult).account.positions "AAPL" = none ∧
    dictFind ((submit_order oSell5 acctHolding 150 "trade-2" "T1" "D1").getD
      fallbackResult).account.daily_pl "D1" = some 250 := by
  obtain ⟨r, hr, hsucc, hpos, hpl⟩ :=
    sell_full_position_realizes_pl oSell5 acctHolding 150 "trade-2" "T1" "D1"
      { symbol := "AAPL", quantity := 5, cost_basis := 100 } rfl rfl
      (by simp [acctHolding, oSell5, dictFind]) (by norm_num [oSell5])
  rw [hr]
  simp only [Option.getD_some]
  refine ⟨hpos, ?_⟩
  rw [hpl]
  norm_num [acctHolding, dictFind, oSell5]

/-- C10: the cost-basis update of a MARKET BUY or BUY_TO_COVER onto an
existing position divides by position quantity plus order quantity with
no zero guard: covering a short of exactly the order quantity (with
sufficient funds) raises ZeroDivisionError (modelled as none), and the
operation is well defined whenever that denominator is nonzero. -/
theorem cover_full_short_division_by_zero
    (order : Order) (account : PaperAccount) (px : ℚ) (tid now today : String)
    (p : Position)
    (ho : order.order_type = OrderType.MARKET)
    (ha : order.action = OrderAction.BUY ∨ order.action = OrderAction.BUY_TO_COVER)
    (hc : ¬ account.cash < order.quantity * px + 4.95)
    (hfind : dictFind account.positions order.symbol = some p) :
    (p.quantity = -order.quantity →
      submit_order order account px tid now today = none) ∧
    (p.quantity + order.quantity ≠ 0 →
      (submit_order order account px tid now today).isSome = true) := by
  constructor
  · intro hq
    exact submit_order_buy_zero_denominator order account px tid now today p
      ho ha hc hfind (by rw [hq]; ring)
  · intro hnz
    rw [submit_order_buy_existing_position order account px tid now today p
      ho ha hc hfind hnz]
    rfl

/-- Witness for C10: buying 10 AAPL against a short of -10 AAPL with
ample cash hits the zero denominator and raises. -/
theorem cover_full_short_division_by_zero_witness :
    submit_order oBuy10 acctShort 150 "trade-1" "T1" "D1" = none :=
  (cover_full_short_division_by_zero oBuy10 acctShort 150 "trade-1" "T1" "D1"
    { symbol := "AAPL", quantity := -10, cost_basis := 100 }
    rfl (Or.inl rfl) (by norm_num [acctShort, oBuy10])
    (by simp [acctShort, oBuy10, dictFind])).1 (by norm_num [oBuy10])

/-- First demo operation: MARKET buy of 10 AAPL at 150.0. -/
def op1 : MarketOp :=
  { side := Side.buy, symbol := "AAPL", quantity := 10, price := 150,
    order_id := "o-1", trade_id := "t-1", now := "N1", today := "D1" }

/-- Second demo operation: MARKET sell of 10 AAPL at 160.0. -/
def op2 : MarketOp :=
  { side := Side.sell, symbol := "AAPL", quantity := 10, price := 160,
    order_id := "o-2", trade_id := "t-2", now := "N2", today := "D2" }

/-- Fresh demo account with 100000.0 cash. -/
def demoAcct : PaperAccount := { cash := 100000 }

/-- Account after running op1 then op2 on demoAcct: cash is
100000 - 1500 + 1600 - 2 * 4.95 = 100090.10. -/
def demoFinal : PaperAccount :=
  { cash := 1000901 / 10,
    positions := [],
    orders :=
      [("o-1",
        { order_id := "o-1", symbol := "AAPL", action := OrderAction.BUY,
          quantity := 10, order_type := OrderType.MARKET,
          status := OrderStatus.EXECUTED, submitted_at := "N1",
          executed_at := some "N1", execution_price := some 150 }),
       ("o-2",
        { order_id := "o-2", symbol := "AAPL", action := OrderAction.SELL,
          quantity := 10, order_type := OrderType.MARKET,
          status := OrderStatus.EXECUTED, submitted_at := "N2",
          executed_at := some "N2", execution_price := some 160 })],
    trades :=
      [{ trade_id := "t-1", order_id := "o-1", symbol := "AAPL",
         action := OrderAction.BUY, quantity := 10, price := 150,
         timestamp := "N1", commission := 4.95 },
       { trade_id := "t-2", order_id := "o-2", symbol := "AAPL",
         action := OrderAction.SELL, quantity := 10, price := 160,
         timestamp := "N2", commission := 4.95 }],
    daily_pl := [("D2", 100)] }

/-- Witness for C3: buying 10 AAPL at 150.0 and selling them at 160.0
leaves 100000 - 1500 + 1600 - 2 * 4.95 in cash. -/
theorem sequence_cash_conservation_witness :
    demoFinal.cash = demoAcct.cash - buyTotal [op1, op2] + sellTotal [op1, op2] -
      (([op1, op2] : List MarketOp).length : ℚ) * 4.95 :=
  sequence_cash_conservation [op1, op2] demoAcct demoFinal (by
    norm_num [runOps, op1, op2, MarketOp.order, Side.action, submit_order,
      recordAndSave, demoAcct, demoFinal, dictFind, dictInsert, dictErase]
    decide)

/-- Counterexample for C6: the BUY of 10 shares at 150.0 against 1000.0
cash is rejected (success is false), yet the returned order carries
status EXECUTED with executed_at and execution_price set, because
submit_order stamps them before validating. -/
theorem rejected_order_marked_executed_cex :
    ((submit_order oBuy10 acctPoor 150 "trade-1" "T1" "D1").getD fallbackResult).success
        = false ∧
    ((submit_order oBuy10 acctPoor 150 "trade-1" "T1" "D1").getD fallbackResult).order.status
        = OrderStatus.EXECUTED ∧
    ((submit_order oBuy10 acctPoor 150 "trade-1" "T1" "D1").getD fallbackResult).order.executed_at
        = some "T1" ∧
    ((submit_order oBuy10 acctPoor 150 "trade-1" "T1" "D1").getD fallbackResult).order.execution_price
        = some 150 := by
  have hsub := submit_order_buy_rejected oBuy10 acctPoor 150 "trade-1" "T1" "D1"
    rfl (Or.inl rfl) (by norm_num [acctPoor, oBuy10])
  rw [hsub]
  simp

/-- C6 amended: a rejected MARKET order is never added to the account's
orders map (so orders stored in the account carry executed_at and
execution_price only from actual executions), but submit_order stamps
status EXECUTED, executed_at and execution_price on the order before
validating, so the rejected order is returned with all three set. -/
theorem rejected_order_stamped_but_not_stored
    (order : Order) (account : PaperAccount) (px : ℚ) (tid now today : String)
    (ho : order.order_type = OrderType.MARKET)
    (hrej : ((order.action = OrderAction.BUY ∨ order.action = OrderAction.BUY_TO_COVER) ∧
              account.cash < order.quantity * px + 4.95) ∨
            (order.action = OrderAction.SELL ∧
              ∀ p, dictFind account.positions order.symbol = some p →
                p.quantity < order.quantity)) :
    ∃ r, submit_order order account px tid now today = some r ∧
      r.success = false ∧
      r.account.orders = account.orders ∧
      r.order.status = OrderStatus.EXECUTED ∧
      r.order.executed_at = some now ∧
      r.order.execution_price = some px := by
  rcases hrej with ⟨ha, hc⟩ | ⟨ha, hins⟩
  · exact ⟨_, submit_order_buy_rejected order account px tid now today ho ha hc,
      rfl, rfl, rfl, rfl, rfl⟩
  · exact ⟨_, submit_order_sell_rejected order account px tid now today ho ha hins,
      rfl, rfl, rfl, rfl, rfl⟩

/-- Witness for the amended C6 at the concrete insufficient-funds
rejection. -/
theorem rejected_order_stamped_but_not_stored_witness :
    ((submit_order oBuy10 acctPoor 150 "trade-1" "T1" "D1").getD fallbackResult).account.orders
        = acctPoor.orders ∧
    ((submit_order oBuy10 acctPoor 150 "trade-1" "T1" "D1").getD fallbackResult).order.status
        = OrderStatus.EXECUTED := by
  obtain ⟨r, hr, hsucc, hord, hst, hat, hpx⟩ :=
    rejected_order_stamped_but_not_stored oBuy10 acctPoor 150 "trade-1" "T1" "D1"
      rfl (Or.inl ⟨Or.inl rfl, by norm_num [acctPoor, oBuy10]⟩)
  rw [hr]
  simp only [Option.getD_some]
  exact ⟨hord, hst⟩

/-- Counterexample for C7: create_order performs no quantity validation
and produces an OPEN Order even for quantity 0, rather than rejecting the
request; the quantity check lives in the submit_order MCP tool instead. -/
theorem create_order_accepts_nonpositive_quantity_cex :
    (create_order "aapl" OrderAction.BUY 0 OrderType.MARKET none none none
      "order-1" "T0").quantity = 0 ∧
    (create_order "aapl" OrderAction.BUY 0 OrderType.MARKET none none none
      "order-1" "T0").status = OrderStatus.OPEN ∧
    (create_order "aapl" OrderAction.BUY 0 OrderType.MARKET none none none
      "order-1" "T0").order_id = "order-1" :=
  ⟨rfl, rfl, rfl⟩

/-- C7 amended: a request with quantity at most 0 is rejected by the
input validation of the submit_order MCP tool (trading.py), which runs
before the account is loaded, unless the missing-limit-price error fires
first; create_order itself performs no quantity validation and returns an
OPEN Order with the given quantity. -/
theorem nonpositive_quantity_rejected_in_tool
    (symbol : String) (action : OrderAction) (quantity : ℚ)
    (order_type : OrderType) (limit_price stop_price current_price : Option ℚ)
    (oid t : String)
    (hq : quantity ≤ 0)
    (hl : ¬ (order_type = OrderType.LIMIT ∧ limit_price = none)) :
    submit_order_validate order_type quantity limit_price =
      ToolValidation.errorQuantityNotPositive ∧
    (create_order symbol action quantity order_type limit_price stop_price
      current_price oid t).quantity = quantity ∧
    (create_order symbol action quantity order_type limit_price stop_price
      current_price oid t).status = OrderStatus.OPEN := by
  refine ⟨?_, rfl, rfl⟩
  simp [submit_order_validate, hl, hq]

/-- Witness for the amended C7 at quantity 0 on a MARKET order. -/
theorem nonpositive_quantity_rejected_in_tool_witness :
    submit_order_validate OrderType.MARKET 0 none =
      ToolValidation.errorQuantityNotPositive ∧
    (create_order "aapl" OrderAction.BUY 0 OrderType.MARKET none none none
      "order-1" "T0").quantity = 0 ∧
    (create_order "aapl" OrderAction.BUY 0 OrderType.MARKET none none none
      "order-1" "T0").status = OrderStatus.OPEN :=
  nonpositive_quantity_rejected_in_tool "aapl" OrderAction.BUY 0
    OrderType.MARKET none none none "order-1" "T0" le_rfl (by simp)

/-- C8: cancellation succeeds exactly on an existing OPEN order, setting
its status to CANCELED and persisting; a non-OPEN order fails with a
message naming the current status and the account is left unchanged; an
unknown id fails with an order-not-found message. -/
theorem cancel_order_spec (order_id : String) (account : PaperAccount) :
    (dictFind account.orders order_id = none →
      cancel_order order_id account =
        { success := false, message := Msg.orderNotFound order_id,
          account := account, saved := false }) ∧
    (∀ o, dictFind account.orders order_id = some o →
      o.status ≠ OrderStatus.OPEN →
      cancel_order order_id account =
        { success := false, message := Msg.cannotCancel o.status,
          account := account, saved := false }) ∧
    (∀ o, dictFind account.orders order_id = some o →
      o.status = OrderStatus.OPEN →
      (cancel_order order_id account).success = true ∧
      (cancel_order order_id account).saved = true ∧
      dictFind (cancel_order order_id account).account.orders order_id =
        some { o with status := OrderStatus.CANCELED }) := by
  refine ⟨?_, ?_, ?_⟩
  · intro h
    simp [cancel_order, h]
  · intro o h hst
    simp [cancel_order, h, hst]
  · intro o h hst
    simp [cancel_order, h, hst, dictFind_insert_self]

/-- Account holding one OPEN LIMIT order under id order-9. -/
def acctOpenOrder : PaperAccount :=
  { cash := 100000,
    orders := [("order-9",
      { order_id := "order-9", symbol := "MSFT", action := OrderAction.BUY,
        quantity := 3, order_type := OrderType.LIMIT, limit_price := some 200,
        status := OrderStatus.OPEN, submitted_at := "T0" })] }

/-- Witness for C8: canceling the OPEN order order-9 succeeds, persists,
and stores it as CANCELED. -/
theorem cancel_order_spec_witness :
    (cancel_order "order-9" acctOpenOrder).success = true ∧
    (cancel_order "order-9" acctOpenOrder).saved = true ∧
    dictFind (cancel_order "order-9" acctOpenOrder).account.orders "order-9" =
      some { order_id := "order-9", symbol := "MSFT", action := OrderAction.BUY,
             quantity := 3, order_type := OrderType.LIMIT,
             limit_price := some 200, status := OrderStatus.CANCELED,
             submitted_at := "T0" } :=
  (cancel_order_spec "order-9" acctOpenOrder).2.2
    { order_id := "order-9", symbol := "MSFT", action := OrderAction.BUY,
      quantity := 3, order_type := OrderType.LIMIT, limit_price := some 200,
      status := OrderStatus.OPEN, submitted_at := "T0" }
    (by simp [acctOpenOrder, dictFind]) rfl

/-- Counterexample for C5: a snapshot that is valid, truthy JSON but not
a dict (here the array [1, 2, 3]) reaches PaperAccount.model_validate,
which raises a ValidationError that load_account does not catch, so the
error is visible to callers instead of falling back to a fresh account. -/
theorem load_account_raises_on_nondict_snapshot_cex :
    load_account (FileState.content (Json.arr [Json.num 1, Json.num 2, Json.num 3])) =
      Except.error "Input should be a valid dictionary or instance of PaperAccount" ∧
    (Json.arr [Json.num 1, Json.num 2, Json.num 3]).truthy = true :=
  ⟨rfl, rfl⟩

/-- C5 amended: load_account falls back to creating, persisting and
returning a fresh account with the default cash 100000.0 and empty
collections whenever the snapshot is absent, unreadable, not valid JSON,
or parses to a falsy JSON value; but a snapshot that is truthy valid JSON
failing PaperAccount validation raises the validation error to callers. -/
theorem load_account_fallback
    (fs : FileState)
    (h : fs = FileState.absent ∨ fs = FileState.unreadable ∨
         fs = FileState.invalidJson ∨
         ∃ j, fs = FileState.content j ∧ j.truthy = false) :
    load_account fs =
      Except.ok ({ cash := 100000, positions := [], orders := [], trades := [],
                   daily_pl := [] }, true) := by
  rcases h with h | h | h | ⟨j, h, hj⟩
  · subst h; rfl
  · subst h; rfl
  · subst h; rfl
  · subst h; simp [load_account, load_json_file, setup_account, hj]

/-- Witness for the amended C5 at the absent-snapshot state. -/
theorem load_account_fallback_witness :
    load_account FileState.absent =
      Except.ok ({ cash := 100000, positions := [], orders := [], trades := [],
                   daily_pl := [] }, true) :=
  load_account_fallback FileState.absent (Or.inl rfl)

/-- The unrealized P and L percentage computed by analyze_portfolio, for
any account with at least one position: it is the unsorted-sum formula
guarded by total_invested being strictly positive. -/
theorem analyze_portfolio_percent (account : PaperAccount)
    (h : ¬ account.positions = []) :
    Option.map PortfolioAnalysis.total_unrealized_pl_percent
        (analyze_portfolio account) =
      some (if totalInvested account > 0
            then totalUnrealizedPl account / totalInvested account * 100
            else 0) := by
  unfold analyze_portfolio
  rw [if_neg h]
  simp only [Option.map_some']
  have key : ∀ l : List (String × PortfolioEntry),
      ((stableSort (fun a b => decide (b.2.value ≤ a.2.value)) l).map
        (fun e => e.2.unrealized_pl)).sum =
      (l.map (fun e => e.2.unrealized_pl)).sum :=
    fun l => List.Perm.sum_eq ((stableSort_perm _ l).map _)
  rw [key, List.map_map]
  rfl

/-- Account whose only position is a short of -10 TSLA at cost basis
100.0 carrying a cached unrealized_pl of 50.0; its invested total is
-1000. -/
def acctShortOnly : PaperAccount :=
  { cash := 0,
    positions := [("TSLA",
      { symbol := "TSLA", quantity := -10, cost_basis := 100,
        unrealized_pl := some 50 })] }

/-- Placeholder analysis used as the getD fallback when naming the
result of a concrete portfolio analysis; never actually selected. -/
def fallbackAnalysis : PortfolioAnalysis :=
  { total_value := 0, cash := 0, cash_percent := 0, invested := 0,
    invested_percent := 0, total_unrealized_pl := 0,
    total_unrealized_pl_percent := 99999, positions := [],
    num_positions := 0, most_concentrated := none,
    daily_pl_avg_best_worst := none }

/-- Counterexample for C9: on an account whose positions sum to a
negative invested total (-1000) with unrealized P and L 50, the code
returns 0 for total_unrealized_pl_percent (its guard is total_invested
strictly positive), while the claimed formula divides and yields -5. -/
theorem analyze_percent_negative_denominator_cex :
    ((analyze_portfolio acctShortOnly).getD fallbackAnalysis).total_unrealized_pl_percent
        = 0 ∧
    totalUnrealizedPl acctShortOnly / totalInvested acctShortOnly * 100 = -5 ∧
    totalInvested acctShortOnly = -1000 ∧
    (0 : ℚ) ≠ -5 := by
  refine ⟨?_, ?_, ?_, ?_⟩
  · norm_num [analyze_portfolio, acctShortOnly, stableSort, insertSorted,
      listMax, listMin, fallbackAnalysis]
  · norm_num [totalUnrealizedPl, totalInvested, acctShortOnly]
  · norm_num [totalInvested, acctShortOnly]
  · norm_num

/-- C9 amended: for every account with at least one position,
analyze_portfolio returns total_unrealized_pl_percent equal to the sum of
per-position unrealized P and L divided by the sum of quantity times cost
basis, times 100, returning 0 instead of dividing whenever that
denominator is zero or negative (the code guards on it being strictly
positive). -/
theorem analyze_percent_guard (account : PaperAccount)
    (h : account.positions ≠ []) :
    ∃ res, analyze_portfolio account = some res ∧
      res.total_unrealized_pl_percent =
        if totalInvested account > 0
        then totalUnrealizedPl account / totalInvested account * 100
        else 0 := by
  have hmap := analyze_portfolio_percent account h
  cases han : analyze_portfolio account with
  | none => rw [han] at hmap; cases hmap
  | some res =>
    rw [han] at hmap
    refine ⟨res, rfl, ?_⟩
    simpa using hmap

/-- Witness for the amended C9 at the short-only account, where the
guard fires and the percentage is 0. -/
theorem analyze_percent_guard_witness :
    ((analyze_portfolio acctShortOnly).getD fallbackAnalysis).total_unrealized_pl_percent
        = if totalInvested acctShortOnly > 0
          then totalUnrealizedPl acctShortOnly / totalInvested acctShortOnly * 100
          else 0 := by
  obtain ⟨res, hres, hval⟩ := analyze_percent_guard acctShortOnly (by simp [acctShortOnly])
  rw [hres]
  simp only [Option.getD_some]
  exact hval

end Trading
